import Mathlib

/-!
Shallow embedding of `src/sensores.py` (industrial sensor monitoring pipeline).

Real numbers of the Python source are modelled by `ℚ`; every numeric value
appearing in the spec's scenarios is exactly representable there.  Mutation is
modelled by explicit state passing; the side effects of the evaluation cycle
(`print`-based notifier sends and `RegistroEvento.registrar_evento` log writes)
are modelled as an emitted trace of `Event`s.  The timestamp produced by
`registrar_evento` is a presentation detail of the log collaborator and is
abstracted away from the event payload.
-/

namespace Sensores

/-- The two notifier implementations of the source (`NotificadorEmail`,
`NotificadorWebhook`), each holding only its destination. -/
inductive Notificador where
  | email (destinatario : String)
  | webhook (url : String)
deriving DecidableEq, Repr

/-- The four concrete sensor kinds; each subclass of `Sensor` adds exactly one
threshold attribute. -/
inductive SensorKind where
  | temperatura (umbral : ℚ)
  | vibracion (rms_umbral : ℚ)
  | humedad (humedad_max : ℚ)
  | contaminacionAire (umbral_particulas_por_millon : ℚ)
deriving DecidableEq, Repr

/-- The shared sensor state of the `Sensor` dataclass: identifier, window size
`ventana`, calibration offset `_calibracion`, reading buffer `_buffer`, plus
the variant tag carrying the kind-specific threshold. -/
structure Sensor where
  id : String
  ventana : Nat
  calibracion : ℚ
  buffer : List ℚ
  kind : SensorKind
deriving DecidableEq, Repr

/-- `Sensor.leer` (src/sensores.py:38-43): apply calibration, append to the
buffer, and pop index 0 once if the length now exceeds the window. -/
def Sensor.leer (s : Sensor) (valor : ℚ) : Sensor :=
  let b := s.buffer ++ [valor + s.calibracion]
  { s with buffer := if s.ventana < b.length then b.tail else b }

/-- Folding a whole sequence of readings through `Sensor.leer`. -/
def Sensor.lecturas (s : Sensor) (vs : List ℚ) : Sensor :=
  vs.foldl Sensor.leer s

/-- `Sensor.promedio` (src/sensores.py:45-47): `mean(self._buffer)` when the
buffer is non-empty, `0.0` otherwise. -/
def Sensor.promedio (s : Sensor) : ℚ :=
  if s.buffer = [] then 0 else s.buffer.sum / s.buffer.length

/-- The threshold attribute of a sensor's kind (`umbral`, `rms_umbral`,
`humedad_max`, `umbral_particulas_por_millon`). -/
def Sensor.umbral (s : Sensor) : ℚ :=
  match s.kind with
  | .temperatura u => u
  | .vibracion u => u
  | .humedad u => u
  | .contaminacionAire u => u

/-- `en_alerta` (src/sensores.py:58-83): per-kind threshold comparison against
the rolling average; the vibration variant compares the absolute value of the
average. -/
def Sensor.en_alerta (s : Sensor) : Bool :=
  match s.kind with
  | .temperatura u => decide (u ≤ s.promedio)
  | .vibracion u => decide (u ≤ |s.promedio|)
  | .humedad u => decide (u ≤ s.promedio)
  | .contaminacionAire u => decide (u ≤ s.promedio)

/-- One observable effect of an evaluation cycle: a log write
(`RegistroEvento.registrar_evento`, timestamp abstracted), a notifier send
(`Notificador.enviar`), or a bare `print` of `PlantaIndustrial`. -/
inductive Event where
  | log (evento : String) (mensaje : String)
  | envio (n : Notificador) (mensaje : String)
  | salida (texto : String)
deriving DecidableEq, Repr

/-- Renders a rational with two decimal digits, modelling the `avg={...:.2f}`
field of the alert message (rounding of exact half values abstracted as
round-half-up; no scenario of the source depends on the tie direction). -/
def fmt2 (q : ℚ) : String :=
  let c : Int := ⌊q * 100 + 1/2⌋
  let a := c.natAbs
  (if c < 0 then "-" else "") ++ toString (a / 100) ++ "." ++
    (if a % 100 < 10 then "0" else "") ++ toString (a % 100)

/-- The alert message of src/sensores.py:96. -/
def mensajeAlerta (s : Sensor) : String :=
  "ALERTA: Sensor " ++ s.id ++ " en umbral (avg=" ++ fmt2 s.promedio ++ ")"

/-- The inner notifier loop of `evaluar_y_notificar` (src/sensores.py:98-100):
for each notifier, a send followed by a "NOTIFICACIÓN ENVIADA" log. -/
def notificarTodos (ns : List Notificador) (msg : String) (sid : String) : List Event :=
  match ns with
  | [] => []
  | n :: rest =>
      Event.envio n msg ::
        Event.log "NOTIFICACIÓN ENVIADA" ("Notificación enviada para " ++ sid) ::
          notificarTodos rest msg sid

/-- The per-sensor branch of `evaluar_y_notificar` (src/sensores.py:95-102). -/
def evaluarSensor (s : Sensor) (ns : List Notificador) : List Event :=
  if s.en_alerta then
    Event.log "ALERTA ACTIVA" (mensajeAlerta s) :: notificarTodos ns (mensajeAlerta s) s.id
  else
    [Event.log "SIN ALERTA" ("Sensor " ++ s.id ++ " dentro de los límites.")]

/-- The sensor loop of `evaluar_y_notificar` (src/sensores.py:94-102), threaded
through the sensor list state: the loop only reads each sensor, so it returns
the sensors it iterated over together with the emitted events. -/
def evaluarLista : List Sensor → List Notificador → List Sensor × List Event
  | [], _ => ([], [])
  | s :: rest, ns =>
      let es := evaluarSensor s ns
      let r := evaluarLista rest ns
      (s :: r.1, es ++ r.2)

/-- `GestorAlertas` (src/sensores.py:85-89): ordered sensors and notifiers.
The `RegistroEvento` singleton logger is represented by the event trace. -/
structure GestorAlertas where
  sensores : List Sensor
  notificadores : List Notificador
deriving DecidableEq, Repr

/-- `GestorAlertas.evaluar_y_notificar` (src/sensores.py:91-102): returns the
manager state after the call together with the emitted event trace. -/
def GestorAlertas.evaluar_y_notificar (g : GestorAlertas) : GestorAlertas × List Event :=
  let r := evaluarLista g.sensores g.notificadores
  ({ g with sensores := r.1 },
    Event.log "EVALUACIÓN INICIADA" "Comenzando a evaluar sensores..." :: r.2)

/-- `PlantaIndustrial` (src/sensores.py:105-116). -/
structure PlantaIndustrial where
  gestores : List GestorAlertas
deriving DecidableEq, Repr

/-- `PlantaIndustrial.agregar_gestor` (src/sensores.py:109-110): appends the
manager to the list. -/
def PlantaIndustrial.agregar_gestor (p : PlantaIndustrial) (g : GestorAlertas) : PlantaIndustrial :=
  { p with gestores := p.gestores ++ [g] }

/-- The manager loop of `evaluar_sensores` (src/sensores.py:114-115). -/
def evaluarGestores : List GestorAlertas → List Event
  | [] => []
  | g :: rest => g.evaluar_y_notificar.2 ++ evaluarGestores rest

/-- `PlantaIndustrial.evaluar_sensores` (src/sensores.py:112-116). -/
def PlantaIndustrial.evaluar_sensores (p : PlantaIndustrial) : List Event :=
  Event.salida "\nInicia evaluación..." ::
    (evaluarGestores p.gestores ++ [Event.salida "... Evaluación terminada"])

/-- Whether an event is a notifier send. -/
def Event.esEnvio : Event → Bool
  | .envio _ _ => true
  | _ => false

/-- Whether an event is a send addressed to notifier `n`. -/
def Event.esEnvioA (n : Notificador) : Event → Bool
  | .envio m _ => decide (m = n)
  | _ => false

/-- Whether an event is a log write of kind `k`. -/
def Event.esLog (k : String) : Event → Bool
  | .log e _ => decide (e = k)
  | _ => false

/-! ### Helper lemmas about the sensor window -/

@[simp] theorem Sensor.leer_id (s : Sensor) (v : ℚ) : (s.leer v).id = s.id := rfl

@[simp] theorem Sensor.leer_ventana (s : Sensor) (v : ℚ) : (s.leer v).ventana = s.ventana := rfl

@[simp] theorem Sensor.leer_calibracion (s : Sensor) (v : ℚ) :
    (s.leer v).calibracion = s.calibracion := rfl

@[simp] theorem Sensor.leer_kind (s : Sensor) (v : ℚ) : (s.leer v).kind = s.kind := rfl

theorem Sensor.lecturas_nil (s : Sensor) : s.lecturas [] = s := rfl

theorem Sensor.lecturas_cons (s : Sensor) (v : ℚ) (vs : List ℚ) :
    s.lecturas (v :: vs) = (s.leer v).lecturas vs := rfl

/-- One `leer` call, expressed with a single `drop`: when the invariant holds
before the call, the new buffer is the appended buffer minus its first
`length + 1 - ventana` elements (which is `0` or `1`). -/
theorem Sensor.leer_buffer (s : Sensor) (v : ℚ) (h : s.buffer.length ≤ s.ventana) :
    (s.leer v).buffer =
      (s.buffer ++ [v + s.calibracion]).drop (s.buffer.length + 1 - s.ventana) := by
  show (if s.ventana < (s.buffer ++ [v + s.calibracion]).length
      then (s.buffer ++ [v + s.calibracion]).tail
      else s.buffer ++ [v + s.calibracion]) = _
  by_cases hc : s.ventana < (s.buffer ++ [v + s.calibracion]).length
  · rw [if_pos hc]
    have h1 : s.buffer.length + 1 - s.ventana = 1 := by
      simp only [List.length_append, List.length_cons, List.length_nil] at hc; omega
    rw [h1, List.drop_one]
  · rw [if_neg hc]
    have h1 : s.buffer.length + 1 - s.ventana = 0 := by
      simp only [List.length_append, List.length_cons, List.length_nil] at hc; omega
    rw [h1, List.drop_zero]

/-- Sliding-window characterisation of a whole reading sequence: starting from
any state satisfying the invariant, the final buffer is the initial buffer
followed by the calibrated readings, minus however many leading elements
exceed the window. -/
theorem Sensor.lecturas_buffer (vs : List ℚ) (s : Sensor) (h : s.buffer.length ≤ s.ventana) :
    (s.lecturas vs).buffer =
      (s.buffer ++ vs.map (fun x => x + s.calibracion)).drop
        (s.buffer.length + vs.length - s.ventana) := by
  induction vs generalizing s with
  | nil =>
      rw [Sensor.lecturas_nil]
      simp only [List.map_nil, List.append_nil, List.length_nil, Nat.add_zero]
      rw [Nat.sub_eq_zero_of_le h, List.drop_zero]
  | cons v rest ih =>
      rw [Sensor.lecturas_cons]
      have hb : (s.leer v).buffer =
          (s.buffer ++ [v + s.calibracion]).drop (s.buffer.length + 1 - s.ventana) :=
        s.leer_buffer v h
      have hBlen : (s.buffer ++ [v + s.calibracion]).length = s.buffer.length + 1 := by
        simp
      have hlen : (s.leer v).buffer.length ≤ (s.leer v).ventana := by
        rw [hb, Sensor.leer_ventana, List.length_drop, hBlen]
        omega
      rw [ih (s.leer v) hlen, Sensor.leer_calibracion, Sensor.leer_ventana, hb,
        List.length_drop, hBlen]
      have hle : s.buffer.length + 1 - s.ventana ≤ (s.buffer ++ [v + s.calibracion]).length := by
        rw [hBlen]; omega
      rw [← List.drop_append_of_le_length hle, List.drop_drop]
      have e1 : s.buffer ++ [v + s.calibracion] ++ rest.map (fun x => x + s.calibracion) =
          s.buffer ++ (v :: rest).map (fun x => x + s.calibracion) := by
        simp [List.append_assoc]
      have e2 : s.buffer.length + 1 - s.ventana +
          (s.buffer.length + 1 - (s.buffer.length + 1 - s.ventana) + rest.length - s.ventana) =
          s.buffer.length + (v :: rest).length - s.ventana := by
        simp only [List.length_cons]
        omega
      rw [e1, e2]

/-! ### Helper lemmas about the evaluation trace -/

theorem notificarTodos_eq_flatMap (ns : List Notificador) (msg sid : String) :
    notificarTodos ns msg sid =
      ns.flatMap (fun n =>
        [Event.envio n msg,
          Event.log "NOTIFICACIÓN ENVIADA" ("Notificación enviada para " ++ sid)]) := by
  induction ns with
  | nil => rfl
  | cons n rest ih => simp [notificarTodos, ih]

theorem evaluarLista_fst (ss : List Sensor) (ns : List Notificador) :
    (evaluarLista ss ns).1 = ss := by
  induction ss with
  | nil => rfl
  | cons s rest ih => simp [evaluarLista, ih]

theorem evaluarLista_snd (ss : List Sensor) (ns : List Notificador) :
    (evaluarLista ss ns).2 = ss.flatMap (fun s => evaluarSensor s ns) := by
  induction ss with
  | nil => rfl
  | cons s rest ih => simp [evaluarLista, ih]

theorem notificarTodos_filter_esEnvio (ns : List Notificador) (msg sid : String) :
    (notificarTodos ns msg sid).filter Event.esEnvio =
      ns.map (fun n => Event.envio n msg) := by
  induction ns with
  | nil => rfl
  | cons n rest ih => simp [notificarTodos, List.filter_cons, Event.esEnvio, ih]

theorem evaluarSensor_filter_esEnvio (s : Sensor) (ns : List Notificador) :
    (evaluarSensor s ns).filter Event.esEnvio =
      if s.en_alerta then ns.map (fun n => Event.envio n (mensajeAlerta s)) else [] := by
  unfold evaluarSensor
  by_cases hs : s.en_alerta
  · rw [if_pos hs, if_pos hs, List.filter_cons]
    simp [Event.esEnvio, notificarTodos_filter_esEnvio]
  · rw [if_neg hs, if_neg hs]
    simp [Event.esEnvio]

theorem notificarTodos_countP_esEnvioA (n : Notificador) (ns : List Notificador)
    (msg sid : String) :
    (notificarTodos ns msg sid).countP (Event.esEnvioA n) =
      ns.countP (fun m => decide (m = n)) := by
  induction ns with
  | nil => rfl
  | cons m rest ih => simp [notificarTodos, List.countP_cons, Event.esEnvioA, ih]

theorem notificarTodos_countP_esLog (k : String) (ns : List Notificador) (msg sid : String)
    (hk : k ≠ "NOTIFICACIÓN ENVIADA") :
    (notificarTodos ns msg sid).countP (Event.esLog k) = 0 := by
  induction ns with
  | nil => rfl
  | cons m rest ih =>
      simp only [notificarTodos, List.countP_cons, ih, Event.esLog]
      simp [Ne.symm hk]

theorem evaluarLista_countP_esLog_inicio (ss : List Sensor) (ns : List Notificador) :
    ((evaluarLista ss ns).2).countP (Event.esLog "EVALUACIÓN INICIADA") = 0 := by
  induction ss with
  | nil => rfl
  | cons s rest ih =>
      simp only [evaluarLista, List.countP_append, ih, Nat.add_zero]
      unfold evaluarSensor
      by_cases hs : s.en_alerta
      · rw [if_pos hs]
        simp only [List.countP_cons,
          notificarTodos_countP_esLog "EVALUACIÓN INICIADA" ns _ _ (by decide)]
        simp [Event.esLog]
      · rw [if_neg hs]
        simp [List.countP_cons, Event.esLog]

theorem evaluarGestores_eq_flatMap (gs : List GestorAlertas) :
    evaluarGestores gs = gs.flatMap (fun g => g.evaluar_y_notificar.2) := by
  induction gs with
  | nil => rfl
  | cons g rest ih => simp [evaluarGestores, ih]

theorem evaluar_y_notificar_countP_inicio (g : GestorAlertas) :
    (g.evaluar_y_notificar.2).countP (Event.esLog "EVALUACIÓN INICIADA") = 1 := by
  unfold GestorAlertas.evaluar_y_notificar
  simp only [List.countP_cons, evaluarLista_countP_esLog_inicio]
  simp [Event.esLog]

@[simp] theorem Sensor.lecturas_id (vs : List ℚ) (s : Sensor) :
    (s.lecturas vs).id = s.id := by
  induction vs generalizing s with
  | nil => rfl
  | cons v rest ih => rw [Sensor.lecturas_cons, ih, Sensor.leer_id]

@[simp] theorem Sensor.lecturas_ventana (vs : List ℚ) (s : Sensor) :
    (s.lecturas vs).ventana = s.ventana := by
  induction vs generalizing s with
  | nil => rfl
  | cons v rest ih => rw [Sensor.lecturas_cons, ih, Sensor.leer_ventana]

@[simp] theorem Sensor.lecturas_calibracion (vs : List ℚ) (s : Sensor) :
    (s.lecturas vs).calibracion = s.calibracion := by
  induction vs generalizing s with
  | nil => rfl
  | cons v rest ih => rw [Sensor.lecturas_cons, ih, Sensor.leer_calibracion]

@[simp] theorem Sensor.lecturas_kind (vs : List ℚ) (s : Sensor) :
    (s.lecturas vs).kind = s.kind := by
  induction vs generalizing s with
  | nil => rfl
  | cons v rest ih => rw [Sensor.lecturas_cons, ih, Sensor.leer_kind]

theorem en_alerta_temperatura (s : Sensor) (u : ℚ) (h : s.kind = SensorKind.temperatura u) :
    s.en_alerta = true ↔ u ≤ s.promedio := by
  simp [Sensor.en_alerta, h]

theorem en_alerta_vibracion (s : Sensor) (u : ℚ) (h : s.kind = SensorKind.vibracion u) :
    s.en_alerta = true ↔ u ≤ |s.promedio| := by
  simp [Sensor.en_alerta, h]

theorem en_alerta_humedad (s : Sensor) (u : ℚ) (h : s.kind = SensorKind.humedad u) :
    s.en_alerta = true ↔ u ≤ s.promedio := by
  simp [Sensor.en_alerta, h]

theorem en_alerta_contaminacion (s : Sensor) (u : ℚ)
    (h : s.kind = SensorKind.contaminacionAire u) :
    s.en_alerta = true ↔ u ≤ s.promedio := by
  simp [Sensor.en_alerta, h]

theorem evaluarLista_filter_esEnvio (ss : List Sensor) (ns : List Notificador) :
    ((evaluarLista ss ns).2).filter Event.esEnvio =
      (ss.filter (fun s => s.en_alerta)).flatMap
        (fun s => ns.map (fun n => Event.envio n (mensajeAlerta s))) := by
  induction ss with
  | nil => rfl
  | cons s rest ih =>
      simp only [evaluarLista, List.filter_append, ih, evaluarSensor_filter_esEnvio,
        List.filter_cons]
      by_cases hs : s.en_alerta = true
      · simp [hs]
      · simp [hs]

theorem evaluarLista_countP_esEnvioA (n : Notificador) (ss : List Sensor)
    (ns : List Notificador) :
    ((evaluarLista ss ns).2).countP (Event.esEnvioA n) =
      (ss.countP (fun s => s.en_alerta)) * ns.countP (fun m => decide (m = n)) := by
  induction ss with
  | nil => simp [evaluarLista]
  | cons s rest ih =>
      simp only [evaluarLista, List.countP_append, ih, List.countP_cons]
      unfold evaluarSensor
      by_cases hs : s.en_alerta = true
      · rw [if_pos hs]
        simp only [List.countP_cons, notificarTodos_countP_esEnvioA, Event.esEnvioA, hs,
          if_true, Bool.false_eq_true, if_false, Nat.add_zero]
        ring
      · rw [if_neg hs]
        simp only [hs, if_false]
        simp [Event.esEnvioA]

theorem evaluarGestores_countP_inicio (gs : List GestorAlertas) :
    (evaluarGestores gs).countP (Event.esLog "EVALUACIÓN INICIADA") = gs.length := by
  induction gs with
  | nil => rfl
  | cons g rest ih =>
      simp only [evaluarGestores, List.countP_append, ih,
        evaluar_y_notificar_countP_inicio, List.length_cons]
      omega

/-! ### Claim theorems -/

/-- C1: `record_reading` (`Sensor.leer`) appends exactly `v + calibration_offset`
to the buffer and, when the buffer length then exceeds `window_size`, evicts
index 0 exactly once; consequently, after feeding more than `window_size`
readings into a fresh sensor, the buffer is exactly the most recent
`window_size` calibrated values in insertion order (the calibrated reading
list minus its oldest surplus prefix). -/
theorem C1_record_reading_fifo :
    (∀ (s : Sensor) (v : ℚ),
        (s.leer v).buffer =
          if s.ventana < (s.buffer ++ [v + s.calibracion]).length
          then (s.buffer ++ [v + s.calibracion]).tail
          else s.buffer ++ [v + s.calibracion]) ∧
    ∀ (i : String) (w : Nat) (c : ℚ) (k : SensorKind) (vs : List ℚ),
      w < vs.length →
        (Sensor.lecturas ⟨i, w, c, [], k⟩ vs).buffer =
            (vs.map (fun x => x + c)).drop (vs.length - w) ∧
          (Sensor.lecturas ⟨i, w, c, [], k⟩ vs).buffer.length = w := by
  constructor
  · intro s v; rfl
  · intro i w c k vs hw
    have h := Sensor.lecturas_buffer vs ⟨i, w, c, [], k⟩ (by simp)
    simp only [List.nil_append, List.length_nil, Nat.zero_add] at h
    refine ⟨h, ?_⟩
    rw [h, List.length_drop, List.length_map]
    omega

/-- Witness for C1 at window 1 and readings `[1, 2]`. -/
theorem C1_record_reading_fifo_witness :
    (Sensor.lecturas ⟨"s", 1, 0, [], SensorKind.temperatura 0⟩ [1, 2]).buffer =
        (([1, 2] : List ℚ).map (fun x => x + 0)).drop (([1, 2] : List ℚ).length - 1) ∧
      (Sensor.lecturas ⟨"s", 1, 0, [], SensorKind.temperatura 0⟩ [1, 2]).buffer.length = 1 :=
  C1_record_reading_fifo.2 "s" 1 0 (SensorKind.temperatura 0) [1, 2] (by decide)

/-- C2: starting from an empty buffer with positive `window_size`, the length
of the buffer never exceeds `window_size`.  The reading sequence `vs` ranges
over all sequences, so every intermediate state after a `leer` call is an
instance of this statement (take the corresponding prefix as `vs`). -/
theorem C2_buffer_length_bounded (s : Sensor) (hw : 0 < s.ventana) (hb : s.buffer = [])
    (vs : List ℚ) : (s.lecturas vs).buffer.length ≤ s.ventana := by
  have h := Sensor.lecturas_buffer vs s (by rw [hb]; simp)
  rw [h, List.length_drop]
  simp only [List.length_append, List.length_map, hb, List.length_nil]
  omega

/-- Witness for C2 with window 2 and three readings. -/
theorem C2_buffer_length_bounded_witness :
    (Sensor.lecturas ⟨"s", 2, 0, [], SensorKind.temperatura 0⟩ [1, 2, 3]).buffer.length ≤ 2 :=
  C2_buffer_length_bounded ⟨"s", 2, 0, [], SensorKind.temperatura 0⟩ (by decide) rfl [1, 2, 3]

/-- C3: `promedio` returns `0` on an empty buffer and the arithmetic mean of
the buffer otherwise (characterised as: the value times the buffer length is
the buffer sum).  `promedio` is a plain function `Sensor → ℚ` in this
embedding, mirroring that the source property only reads `self._buffer`:
calling it cannot change the sensor state. -/
theorem C3_promedio_mean (s : Sensor) :
    (s.buffer = [] → s.promedio = 0) ∧
    (s.buffer ≠ [] → (s.buffer.length : ℚ) * s.promedio = s.buffer.sum) := by
  refine ⟨fun h => by simp [Sensor.promedio, h], fun h => ?_⟩
  rw [Sensor.promedio, if_neg h]
  have hne : (s.buffer.length : ℚ) ≠ 0 := by
    have h0 : s.buffer.length ≠ 0 := by
      simpa [List.length_eq_zero] using h
    exact_mod_cast h0
  field_simp

/-- Witness for C3 on an empty buffer and on the buffer `[2, 4]`. -/
theorem C3_promedio_mean_witness :
    Sensor.promedio ⟨"e", 5, 0, [], SensorKind.temperatura 80⟩ = 0 ∧
      ((([2, 4] : List ℚ).length : ℚ) *
          Sensor.promedio ⟨"t", 5, 0, [2, 4], SensorKind.temperatura 80⟩ =
        ([2, 4] : List ℚ).sum) :=
  ⟨(C3_promedio_mean ⟨"e", 5, 0, [], SensorKind.temperatura 80⟩).1 rfl,
    (C3_promedio_mean ⟨"t", 5, 0, [2, 4], SensorKind.temperatura 80⟩).2 (by simp)⟩

/-- C4: for the temperature, humidity and air-contamination kinds,
`en_alerta` holds exactly when the average reaches the kind's threshold, with
an inclusive boundary; in particular a humidity sensor with threshold 70,
window ≥ 2 and readings 65 then 75 (offset 0) averages exactly 70 and is in
alert. -/
theorem C4_threshold_inclusive :
    (∀ (s : Sensor) (u : ℚ), s.kind = SensorKind.temperatura u →
        (s.en_alerta = true ↔ u ≤ s.promedio)) ∧
    (∀ (s : Sensor) (u : ℚ), s.kind = SensorKind.humedad u →
        (s.en_alerta = true ↔ u ≤ s.promedio)) ∧
    (∀ (s : Sensor) (u : ℚ), s.kind = SensorKind.contaminacionAire u →
        (s.en_alerta = true ↔ u ≤ s.promedio)) ∧
    ∀ w : Nat, 2 ≤ w →
      (Sensor.lecturas ⟨"h", w, 0, [], SensorKind.humedad 70⟩ [65, 75]).promedio = 70 ∧
        (Sensor.lecturas ⟨"h", w, 0, [], SensorKind.humedad 70⟩ [65, 75]).en_alerta = true := by
  refine ⟨en_alerta_temperatura, en_alerta_humedad, en_alerta_contaminacion, ?_⟩
  intro w hw
  have hbuf : (Sensor.lecturas ⟨"h", w, 0, [], SensorKind.humedad 70⟩ [65, 75]).buffer =
      [65, 75] := by
    have h := Sensor.lecturas_buffer [65, 75] ⟨"h", w, 0, [], SensorKind.humedad 70⟩ (by simp)
    simp at h
    rw [h, Nat.sub_eq_zero_of_le hw, List.drop_zero]
  have hprom : (Sensor.lecturas ⟨"h", w, 0, [], SensorKind.humedad 70⟩ [65, 75]).promedio =
      70 := by
    simp only [Sensor.promedio, hbuf]
    rw [if_neg (by simp : ¬([65, 75] : List ℚ) = [])]
    norm_num
  refine ⟨hprom, ?_⟩
  rw [en_alerta_humedad _ 70 (by simp), hprom]

/-- Witness for C4: one concrete sensor per kind conjunct, and the humidity
scenario at window exactly 2. -/
theorem C4_threshold_inclusive_witness :
    ((⟨"t", 5, 0, [80], SensorKind.temperatura 80⟩ : Sensor).en_alerta = true ↔
        (80 : ℚ) ≤ (⟨"t", 5, 0, [80], SensorKind.temperatura 80⟩ : Sensor).promedio) ∧
    ((⟨"h", 5, 0, [], SensorKind.humedad 70⟩ : Sensor).en_alerta = true ↔
        (70 : ℚ) ≤ (⟨"h", 5, 0, [], SensorKind.humedad 70⟩ : Sensor).promedio) ∧
    ((⟨"a", 5, 0, [], SensorKind.contaminacionAire 100⟩ : Sensor).en_alerta = true ↔
        (100 : ℚ) ≤ (⟨"a", 5, 0, [], SensorKind.contaminacionAire 100⟩ : Sensor).promedio) ∧
    ((Sensor.lecturas ⟨"h", 2, 0, [], SensorKind.humedad 70⟩ [65, 75]).promedio = 70 ∧
      (Sensor.lecturas ⟨"h", 2, 0, [], SensorKind.humedad 70⟩ [65, 75]).en_alerta = true) :=
  ⟨C4_threshold_inclusive.1 _ 80 rfl, C4_threshold_inclusive.2.1 _ 70 rfl,
    C4_threshold_inclusive.2.2.1 _ 100 rfl, C4_threshold_inclusive.2.2.2 2 (by decide)⟩

/-- C5: the vibration kind alerts exactly when the absolute value of the
average reaches `rms_umbral`; with threshold 5/2 (= 2.5) and offset 0, a
single reading 3/2 (= 1.5) averages 3/2 and does not alert, and a further
reading 3 gives average 9/4 (= 2.25), still below the threshold. -/
theorem C5_vibracion_abs :
    (∀ (s : Sensor) (u : ℚ), s.kind = SensorKind.vibracion u →
        (s.en_alerta = true ↔ u ≤ |s.promedio|)) ∧
    (Sensor.leer ⟨"v", 5, 0, [], SensorKind.vibracion (5/2)⟩ (3/2)).promedio = 3/2 ∧
    (Sensor.leer ⟨"v", 5, 0, [], SensorKind.vibracion (5/2)⟩ (3/2)).en_alerta = false ∧
    ((Sensor.leer ⟨"v", 5, 0, [], SensorKind.vibracion (5/2)⟩ (3/2)).leer 3).promedio = 9/4 ∧
    ((Sensor.leer ⟨"v", 5, 0, [], SensorKind.vibracion (5/2)⟩ (3/2)).leer 3).en_alerta =
      false := by
  refine ⟨en_alerta_vibracion, ?_, ?_, ?_, ?_⟩
  · simp [Sensor.leer, Sensor.promedio]
  · rw [Bool.eq_false_iff]
    intro hT
    have h := (en_alerta_vibracion _ (5/2) rfl).mp hT
    rw [show (Sensor.leer ⟨"v", 5, 0, [], SensorKind.vibracion (5/2)⟩ (3/2)).promedio = 3/2
        by simp [Sensor.leer, Sensor.promedio]] at h
    rw [abs_of_nonneg (by norm_num : (0:ℚ) ≤ 3/2)] at h
    norm_num at h
  · simp [Sensor.leer, Sensor.promedio]
    norm_num
  · rw [Bool.eq_false_iff]
    intro hT
    have h := (en_alerta_vibracion _ (5/2) rfl).mp hT
    rw [show ((Sensor.leer ⟨"v", 5, 0, [], SensorKind.vibracion (5/2)⟩ (3/2)).leer 3).promedio
          = 9/4 by simp [Sensor.leer, Sensor.promedio]; norm_num] at h
    rw [abs_of_nonneg (by norm_num : (0:ℚ) ≤ 9/4)] at h
    norm_num at h

/-- Witness for C5 on a concrete vibration sensor. -/
theorem C5_vibracion_abs_witness :
    (⟨"v", 5, 0, [3], SensorKind.vibracion 1⟩ : Sensor).en_alerta = true ↔
      (1 : ℚ) ≤ |(⟨"v", 5, 0, [3], SensorKind.vibracion 1⟩ : Sensor).promedio| :=
  C5_vibracion_abs.1 ⟨"v", 5, 0, [3], SensorKind.vibracion 1⟩ 1 rfl

/-- C8: `en_alerta` is total in this embedding (a function `Sensor → Bool`)
and on an empty buffer the average is 0, so a sensor of any kind whose
threshold is ≤ 0 is in alert with no readings recorded; conversely a positive
threshold means no alert on an empty buffer. -/
theorem C8_empty_buffer_alert (s : Sensor) (h : s.buffer = []) :
    s.promedio = 0 ∧ (s.en_alerta = true ↔ s.umbral ≤ 0) := by
  have hp : s.promedio = 0 := by simp [Sensor.promedio, h]
  refine ⟨hp, ?_⟩
  cases hk : s.kind with
  | temperatura u => rw [en_alerta_temperatura s u hk, hp, Sensor.umbral, hk]
  | vibracion u => rw [en_alerta_vibracion s u hk, hp, abs_zero, Sensor.umbral, hk]
  | humedad u => rw [en_alerta_humedad s u hk, hp, Sensor.umbral, hk]
  | contaminacionAire u => rw [en_alerta_contaminacion s u hk, hp, Sensor.umbral, hk]

/-- Witness for C8 on a freshly created temperature sensor with threshold -1. -/
theorem C8_empty_buffer_alert_witness :
    Sensor.promedio ⟨"t", 5, 0, [], SensorKind.temperatura (-1)⟩ = 0 ∧
      (Sensor.en_alerta ⟨"t", 5, 0, [], SensorKind.temperatura (-1)⟩ = true ↔
        Sensor.umbral ⟨"t", 5, 0, [], SensorKind.temperatura (-1)⟩ ≤ 0) :=
  C8_empty_buffer_alert ⟨"t", 5, 0, [], SensorKind.temperatura (-1)⟩ rfl

/-- C6: one evaluation cycle sends to each registered notifier exactly once
per alerting sensor and never for a non-alerting sensor: the send events of
the trace are exactly one send of the sensor's alert message per
(alerting sensor, notifier) pair, and for any notifier value `n` the number
of sends addressed to `n` is the number of alerting sensors times the number
of registrations of `n`. -/
theorem C6_sends_per_alerting_sensor (g : GestorAlertas) :
    (g.evaluar_y_notificar.2.filter Event.esEnvio =
      (g.sensores.filter (fun s => s.en_alerta)).flatMap
        (fun s => g.notificadores.map (fun n => Event.envio n (mensajeAlerta s)))) ∧
    ∀ n : Notificador,
      g.evaluar_y_notificar.2.countP (Event.esEnvioA n) =
        (g.sensores.countP (fun s => s.en_alerta)) *
          g.notificadores.countP (fun m => decide (m = n)) := by
  have hshape : g.evaluar_y_notificar.2 =
      Event.log "EVALUACIÓN INICIADA" "Comenzando a evaluar sensores..." ::
        (evaluarLista g.sensores g.notificadores).2 := rfl
  constructor
  · rw [hshape, List.filter_cons]
    simp only [Event.esEnvio]
    simp [evaluarLista_filter_esEnvio]
  · intro n
    rw [hshape, List.countP_cons]
    simp only [Event.esEnvioA]
    simp [evaluarLista_countP_esEnvioA]

/-- C7: the event trace of one evaluation cycle is: the "EVALUACIÓN INICIADA"
log (the spec's "EVALUATION STARTED" kind), then, for each sensor in
registration order, either an "ALERTA ACTIVA" ("ALERT ACTIVE") log followed
by, for each notifier in registration order, a send immediately followed by a
"NOTIFICACIÓN ENVIADA" ("NOTIFICATION SENT") log — so all notifiers of an
alerting sensor are handled before the next sensor — or a single "SIN ALERTA"
("NO ALERT") log. -/
theorem C7_trace_shape (g : GestorAlertas) :
    g.evaluar_y_notificar.2 =
      Event.log "EVALUACIÓN INICIADA" "Comenzando a evaluar sensores..." ::
        g.sensores.flatMap (fun s =>
          if s.en_alerta then
            Event.log "ALERTA ACTIVA" (mensajeAlerta s) ::
              g.notificadores.flatMap (fun n =>
                [Event.envio n (mensajeAlerta s),
                  Event.log "NOTIFICACIÓN ENVIADA" ("Notificación enviada para " ++ s.id)])
          else
            [Event.log "SIN ALERTA" ("Sensor " ++ s.id ++ " dentro de los límites.")]) := by
  have hshape : g.evaluar_y_notificar.2 =
      Event.log "EVALUACIÓN INICIADA" "Comenzando a evaluar sensores..." ::
        (evaluarLista g.sensores g.notificadores).2 := rfl
  have hfun : (fun s => evaluarSensor s g.notificadores) =
      (fun s : Sensor =>
        if s.en_alerta then
          Event.log "ALERTA ACTIVA" (mensajeAlerta s) ::
            g.notificadores.flatMap (fun n =>
              [Event.envio n (mensajeAlerta s),
                Event.log "NOTIFICACIÓN ENVIADA" ("Notificación enviada para " ++ s.id)])
        else
          [Event.log "SIN ALERTA" ("Sensor " ++ s.id ++ " dentro de los límites.")]) := by
    funext s
    unfold evaluarSensor
    by_cases hs : s.en_alerta = true
    · rw [if_pos hs, if_pos hs, notificarTodos_eq_flatMap]
    · rw [if_neg hs, if_neg hs]
  rw [hshape, evaluarLista_snd, hfun]

/-- C9: `evaluar_sensores` runs `evaluar_y_notificar` exactly once per
registered manager, in registration order (its trace is the in-order
concatenation of the managers' traces, and the per-cycle "EVALUACIÓN
INICIADA" log appears exactly `gestores.length` times); `agregar_gestor`
appends the new manager at the end, leaving the existing managers and their
order unchanged. -/
theorem C9_planta_evaluar_y_agregar (p : PlantaIndustrial) (g : GestorAlertas) :
    ((p.agregar_gestor g).gestores = p.gestores ++ [g]) ∧
    (p.evaluar_sensores =
      Event.salida "\nInicia evaluación..." ::
        (p.gestores.flatMap (fun h => h.evaluar_y_notificar.2) ++
          [Event.salida "... Evaluación terminada"])) ∧
    (p.evaluar_sensores.countP (Event.esLog "EVALUACIÓN INICIADA") = p.gestores.length) := by
  have hshape : p.evaluar_sensores =
      Event.salida "\nInicia evaluación..." ::
        (evaluarGestores p.gestores ++ [Event.salida "... Evaluación terminada"]) := rfl
  refine ⟨rfl, ?_, ?_⟩
  · rw [hshape, evaluarGestores_eq_flatMap]
  · rw [hshape, List.countP_cons, List.countP_append, evaluarGestores_countP_inicio]
    simp [Event.esLog]

/-- C10: `evaluar_y_notificar` only reads the manager's state: the manager
returned by the state-passing embedding (including the sensor list with every
sensor's id, window, offset, threshold and buffer, and the notifier list) is
exactly the input manager; its only effects are the emitted trace. -/
theorem C10_evaluar_y_notificar_frame (g : GestorAlertas) :
    g.evaluar_y_notificar.1 = g := by
  show { g with sensores := (evaluarLista g.sensores g.notificadores).1 } = g
  rw [evaluarLista_fst]

end Sensores
